import Mathlib

/-!
Shallow embedding of the token lifecycle manager of a serverless HubSpot
OAuth client/proxy (Netlify functions).

Embedded source files:
- src/netlify/functions/token-store.js : Redis/environment-variable token
  store (saveTokens, getTokens, needsRefresh).
- src/unnamed/part_004 : in-memory multi-tenant token store keyed by hub_id
  (saveTokens, getTokens, needsRefresh; the tokenData construction is
  line-for-line identical to the Redis variant).
- src/unnamed/part_000 (lines 964-1029) : refreshAccessToken with the
  tenant-binding (hub_id mismatch) check.
- src/unnamed/part_008 / src/netlify/functions/hubspot-proxy.js :
  refreshAccessToken without the tenant check, getAccessToken, and the
  proxy handler implementing the get-token, call, on-401-refresh-once,
  retry state machine.

Modelling conventions:
- JavaScript strings that may be undefined are Option String; the JS
  truthiness test treats undefined/null and the empty string as falsy.
- Timestamps (Date.now(), expiresAt) are Int milliseconds; Date.now() is
  passed in explicitly as a parameter named now.
- A numeric field that may be undefined is Option Int; undefined (and the
  NaN produced by arithmetic on undefined) is falsy, as is 0.
- The store backend (in-memory Map / Redis keyspace) is an association
  list from key strings to records; network and backend I/O results are
  explicit parameters (a response value, a Boolean success flag, or an
  oracle indexed by the number of calls made so far).
- Thrown JS exceptions are modelled with Except; a function that catches
  internally returns plain values.
-/

/-- JS truthiness of a possibly-undefined string: undefined and the empty
string are falsy. -/
def truthyS : Option String → Bool
  | none => false
  | some s => if s = "" then false else true

/-- JS a or-else b for possibly-undefined strings, as in a short-circuit
or expression applied to two string values. -/
def jsOrS (a b : Option String) : Option String :=
  if truthyS a then a else b

/-- JS a or-else d for a possibly-undefined number against an always
defined default: undefined and 0 are falsy. -/
def jsOrIntD (a : Option Int) (d : Int) : Int :=
  match a with
  | some x => if x = 0 then d else x
  | none => d

/-- Canonical token record as stored by the token store. The JS object
always carries hub_id and updatedAt; accessToken and refreshToken can be
undefined (copied from absent input fields), and expiresAt is kept as an
Option because needsRefresh must also accept records lacking it. -/
structure TokenRecord where
  hub_id : String
  accessToken : Option String
  refreshToken : Option String
  expiresAt : Option Int
  updatedAt : Int
deriving Repr, DecidableEq

/-- Loose token data passed into saveTokens, and also the shape of the
newTokenData object built by the refreshers: any field may be absent. -/
structure RawTokens where
  raw_hub_id : Option String
  accessToken : Option String
  access_token : Option String
  refreshToken : Option String
  refresh_token : Option String
  expiresAt : Option Int
  expires_in : Option Int
deriving Repr, DecidableEq

/-- The distinct throw sites of the embedded code. -/
inductive JsError where
  /-- saveTokens: hub_id is required for saving tokens. -/
  | hubIdRequired
  /-- saveTokens: TypeError from the log line reading
  tokenData.accessToken.substring when accessToken is undefined. -/
  | accessTokenUndefined
  /-- refreshAccessToken: no refresh token available. -/
  | noRefreshToken
  /-- refreshAccessToken: missing CLIENT_ID or CLIENT_SECRET. -/
  | missingClientConfig
  /-- refreshAccessToken: provider rejected the refresh request. -/
  | refreshFailed (status : Nat) (message : Option String)
  /-- refreshAccessToken (part_000): token hub_id mismatch. -/
  | hubMismatch (actual requested : String)
deriving Repr, DecidableEq

/-- A token-store backend: association list from key to record.  For the
in-memory Map the key is the hub_id itself; for Redis it is the string
tokens: followed by the hub_id. -/
abbrev Store := List (String × TokenRecord)

/-- Key lookup in a backend, first match wins (Map.get / redis GET). -/
def storeGet : Store → String → Option TokenRecord
  | [], _ => none
  | (k', v) :: rest, k => if k' = k then some v else storeGet rest k

/-- Process environment variables consumed by the embedded code. -/
structure Env where
  tokenStorageBackend : Option String
  awsRedisHost : Option String
  hubspotAccessToken : Option String
  hubspotRefreshToken : Option String
  hubspotPortalId : Option String
  hubspotTokenExpiresAt : Option Int
  clientId : Option String
  clientSecret : Option String
deriving Repr, DecidableEq

/-- STORAGE_BACKEND constant: process.env.TOKEN_STORAGE_BACKEND or the
default env (token-store.js line 6). -/
def storageBackend (env : Env) : String :=
  match env.tokenStorageBackend with
  | some s => if s = "" then "env" else s
  | none => "env"

/-- envPortalId of part_004 getTokens: process.env.HUBSPOT_PORTAL_ID or
the sentinel env-var-portal. -/
def envPortal (env : Env) : String :=
  match env.hubspotPortalId with
  | some p => if p = "" then "env-var-portal" else p
  | none => "env-var-portal"

/-- Expiry stamped on environment-variable fallback tokens: the parsed
HUBSPOT_TOKEN_EXPIRES_AT if set, else now plus six hours. -/
def envExpiresAt (env : Env) (now : Int) : Int :=
  match env.hubspotTokenExpiresAt with
  | some e => e
  | none => now + 6 * 60 * 60 * 1000

/-- The record built from environment variables by the getTokens fallback
of part_004 (lines 57-65); the Redis variant builds the same object with
its own envPortalId. -/
def envRecordMem (env : Env) (now : Int) : TokenRecord :=
  { hub_id := envPortal env
    accessToken := env.hubspotAccessToken
    refreshToken := env.hubspotRefreshToken
    expiresAt := some (envExpiresAt env now)
    updatedAt := now }

/-- The tokenData object constructed by saveTokens, identical in
token-store.js lines 81-87 and part_004 lines 16-22. -/
def mkTokenData (hub_id : String) (t : RawTokens) (now : Int) : TokenRecord :=
  { hub_id := hub_id
    accessToken := jsOrS t.accessToken t.access_token
    refreshToken := jsOrS t.refreshToken t.refresh_token
    expiresAt := some (jsOrIntD t.expiresAt (now + (jsOrIntD t.expires_in 21600) * 1000))
    updatedAt := now }

/-- saveTokens of part_004 (lines 11-36): requires a truthy hub_id, builds
tokenData, logs (the log line crashes with a TypeError when accessToken is
undefined), and caches the record under hub_id. -/
def saveTokens_mem (hub_id : String) (t : RawTokens) (now : Int) (st : Store) :
    Except JsError (TokenRecord × Store) :=
  if hub_id = "" then .error .hubIdRequired
  else
    let tokenData := mkTokenData hub_id t now
    match tokenData.accessToken with
    | none => .error .accessTokenUndefined
    | some _ => .ok (tokenData, (hub_id, tokenData) :: st)

/-- getTokens of part_004 (lines 40-100): with a truthy hub_id, check the
cache, then the environment-variable fallback, which answers when the
configured portal id equals the requested hub_id or equals the sentinel
env-var-portal (portal id not configured); with a falsy hub_id, the legacy
branch returns environment tokens unconditionally.  Total: never throws. -/
def getTokens_mem (env : Env) (st : Store) (hub_id : String) (now : Int) :
    Option TokenRecord :=
  if hub_id = "" then
    if truthyS env.hubspotAccessToken ∧ truthyS env.hubspotRefreshToken then
      some (envRecordMem env now)
    else none
  else
    match storeGet st hub_id with
    | some t => some t
    | none =>
      if truthyS env.hubspotAccessToken ∧ truthyS env.hubspotRefreshToken then
        if envPortal env = hub_id ∨ envPortal env = "env-var-portal" then
          some (envRecordMem env now)
        else none
      else none

/-- saveTokens of token-store.js (lines 76-119): requires a truthy hub_id,
builds the same tokenData, writes it to Redis under the key tokens:hub_id
when the redis backend is configured; a Redis failure (redisOk false) is
caught and the record is still returned without being persisted, as is the
case when no persistent backend is configured. -/
def saveTokens_redis (hub_id : String) (t : RawTokens) (env : Env) (now : Int)
    (rs : Store) (redisOk : Bool) : Except JsError (TokenRecord × Store) :=
  if hub_id = "" then .error .hubIdRequired
  else
    let tokenData := mkTokenData hub_id t now
    match tokenData.accessToken with
    | none => .error .accessTokenUndefined
    | some _ =>
      if storageBackend env = "redis" ∧ truthyS env.awsRedisHost then
        if redisOk then .ok (tokenData, ("tokens:" ++ hub_id, tokenData) :: rs)
        else .ok (tokenData, rs)
      else .ok (tokenData, rs)

/-- getTokens of token-store.js (lines 122-168): falsy hub_id returns null;
otherwise read Redis (errors are caught inside getFromRedis and degrade to
null), then fall back to environment variables, returned only when
HUBSPOT_PORTAL_ID is set and equals the requested hub_id.  Total: never
throws. -/
def getTokens_redis (env : Env) (rs : Store) (redisOk : Bool) (hub_id : String)
    (now : Int) : Option TokenRecord :=
  if hub_id = "" then none
  else
    let fromRedis : Option TokenRecord :=
      if storageBackend env = "redis" ∧ truthyS env.awsRedisHost then
        if redisOk then storeGet rs ("tokens:" ++ hub_id) else none
      else none
    match fromRedis with
    | some t => some t
    | none =>
      if truthyS env.hubspotAccessToken ∧ truthyS env.hubspotRefreshToken then
        match env.hubspotPortalId with
        | some pid =>
          if pid ≠ "" ∧ pid = hub_id then
            some { hub_id := pid
                   accessToken := env.hubspotAccessToken
                   refreshToken := env.hubspotRefreshToken
                   expiresAt := some (envExpiresAt env now)
                   updatedAt := now }
          else none
        | none => none
      else none

/-- needsRefresh, identical in token-store.js lines 171-175 and part_004
lines 103-107: true when the record or its expiresAt is falsy, else
Date.now() strictly greater than expiresAt minus five minutes. -/
def needsRefresh (tokens : Option TokenRecord) (now : Int) : Bool :=
  match tokens with
  | none => true
  | some t =>
    match t.expiresAt with
    | none => true
    | some e => if e = 0 then true else decide (now > e - 300000)

/-- JSON body of the OAuth provider token-endpoint response, with the HTTP
ok flag and status of the response it arrived in.  hub_id is kept as the
string the code converts it to with toString. -/
structure TokenEndpointResp where
  ok : Bool
  status : Nat
  statusText : String
  access_token : Option String
  refresh_token : Option String
  expires_in : Option Int
  resp_hub_id : Option String
  message : Option String
deriving Repr, DecidableEq

/-- Shared tail of both refreshers: build newTokenData from the provider
response (refresh_token falls back to the token that was sent, expiresAt
is now plus expires_in seconds, NaN from an absent expires_in modelled as
absent), save it under saveKey (a save failure is caught and only logged),
and return newTokenData. -/
def refreshFinish (saveKey : String) (tok : String) (withHubField : Bool)
    (resp : TokenEndpointResp) (now : Int) (st : Store) :
    Except JsError RawTokens × Store :=
  let newTokenData : RawTokens :=
    { raw_hub_id := if withHubField then some saveKey else none
      accessToken := resp.access_token
      access_token := none
      refreshToken := jsOrS resp.refresh_token (some tok)
      refresh_token := none
      expiresAt := Option.map (fun e => now + e * 1000) resp.expires_in
      expires_in := none }
  match saveTokens_mem saveKey newTokenData now st with
  | .ok (_, st2) => (.ok newTokenData, st2)
  | .error _ => (.ok newTokenData, st)

/-- refreshAccessToken of part_000 lines 964-1029: resolve the refresh
token (argument or HUBSPOT_REFRESH_TOKEN), require client credentials,
POST to the token endpoint (resp is the response), fail on a non-ok
response, then the tenant-binding check: when both the response hub_id and
the requested hub_id are truthy and differ, throw the mismatch error and
save nothing; otherwise save under response-hub_id or-else requested
hub_id, with the hub_id field also placed on newTokenData. -/
def refreshAccessTokenCore (hub_id : String) (refreshToken : Option String)
    (env : Env) (resp : TokenEndpointResp) (now : Int) (st : Store) :
    Except JsError RawTokens × Store :=
  match jsOrS refreshToken env.hubspotRefreshToken with
  | none => (.error .noRefreshToken, st)
  | some tok =>
    if tok = "" then (.error .noRefreshToken, st)
    else if truthyS env.clientId && truthyS env.clientSecret then
      if resp.ok then
        let actualHubId : Option String :=
          match resp.resp_hub_id with
          | some a => if a = "" then none else some a
          | none => none
        match actualHubId with
        | some a =>
          if hub_id = "" then refreshFinish a tok true resp now st
          else if a = hub_id then refreshFinish a tok true resp now st
          else (.error (.hubMismatch a hub_id), st)
        | none => refreshFinish hub_id tok true resp now st
      else (.error (.refreshFailed resp.status resp.message), st)
    else (.error .missingClientConfig, st)

/-- refreshAccessToken of part_008 lines 42-94 (the variant in
hubspot-proxy.js is the same with the hub_id parameter absent): as the
core refresher but with no tenant-binding check, saving under the
requested hub_id, and no hub_id field on newTokenData. -/
def refreshAccessTokenProxy (hub_id : String) (refreshToken : Option String)
    (env : Env) (resp : TokenEndpointResp) (now : Int) (st : Store) :
    Except JsError RawTokens × Store :=
  match jsOrS refreshToken env.hubspotRefreshToken with
  | none => (.error .noRefreshToken, st)
  | some tok =>
    if tok = "" then (.error .noRefreshToken, st)
    else if truthyS env.clientId && truthyS env.clientSecret then
      if resp.ok then refreshFinish hub_id tok false resp now st
      else (.error (.refreshFailed resp.status resp.message), st)
    else (.error .missingClientConfig, st)

/-- Whether refreshAccessToken reaches its fetch of the token endpoint:
precisely when a truthy refresh token is available and both client
credentials are configured. -/
def refreshWillFetch (env : Env) (refreshToken : Option String) : Bool :=
  match jsOrS refreshToken env.hubspotRefreshToken with
  | none => false
  | some tok =>
    if tok = "" then false
    else truthyS env.clientId && truthyS env.clientSecret

/-- An HTTP response from the provider API as seen by the proxy: status
and payload (JSON re-serialization of an unchanged payload is abstracted
as the identity on the payload string). -/
structure ApiResp where
  status : Nat
  body : String
deriving Repr, DecidableEq

/-- World state threaded through one proxy invocation: the environment,
the token store, the clock, two response oracles indexed by how many calls
have been made to each endpoint so far, and the two call counters. -/
structure W where
  env : Env
  store : Store
  now : Int
  api : Nat → ApiResp
  refreshApi : Nat → TokenEndpointResp
  apiCalls : Nat
  refreshCalls : Nat

/-- Initial world for one proxy invocation: both call counters at zero. -/
def mkW (env : Env) (st : Store) (now : Int) (api : Nat → ApiResp)
    (rapi : Nat → TokenEndpointResp) : W :=
  { env := env, store := st, now := now, api := api, refreshApi := rapi
    apiCalls := 0, refreshCalls := 0 }

/-- The proxy refresher run against the world: the token-endpoint call
counter advances exactly when the refresher reaches its fetch, and the
response consumed is the oracle at the pre-call counter. -/
def refreshAccessTokenProxyW (hub_id : String) (refreshToken : Option String)
    (w : W) : Except JsError RawTokens × W :=
  let resp := w.refreshApi w.refreshCalls
  let rc := if refreshWillFetch w.env refreshToken then w.refreshCalls + 1
            else w.refreshCalls
  let pr := refreshAccessTokenProxy hub_id refreshToken w.env resp w.now w.store
  (pr.1, { w with store := pr.2, refreshCalls := rc })

/-- getAccessToken of part_008 lines 7-38: load the tenant record; if its
access token is truthy, refresh proactively when needsRefresh holds and
return the refreshed access token; a refresh failure is caught and falls
through, like a missing or token-less record, to the HUBSPOT_ACCESS_TOKEN
environment fallback, else null. -/
def getAccessTokenW (hub_id : String) (w : W) : Option String × W :=
  match getTokens_mem w.env w.store hub_id w.now with
  | some t =>
    if truthyS t.accessToken then
      if needsRefresh (some t) w.now then
        match refreshAccessTokenProxyW hub_id t.refreshToken w with
        | (Except.ok nt, w2) => (nt.accessToken, w2)
        | (Except.error _, w2) =>
          (if truthyS w2.env.hubspotAccessToken then w2.env.hubspotAccessToken
           else none, w2)
      else (t.accessToken, w)
    else
      (if truthyS w.env.hubspotAccessToken then w.env.hubspotAccessToken
       else none, w)
  | none =>
    (if truthyS w.env.hubspotAccessToken then w.env.hubspotAccessToken
     else none, w)

/-- The caller-visible fields of the incoming Netlify event used by the
proxy handler. -/
structure Event where
  httpMethod : String
  hubIdHeader : Option String
  requestedPath : Option String
deriving Repr, DecidableEq

/-- The structured result the handler returns to its caller. -/
structure HttpResp where
  statusCode : Nat
  body : String
deriving Repr, DecidableEq

/-- Retry tail of the handler (part_008 lines 208-222): on a successful
reactive refresh the request is re-issued once and that second response is
returned; a refresh failure is caught and the first response stands. -/
def handlerRetry (resp1 : ApiResp) (pr : Except JsError RawTokens × W) :
    HttpResp × W :=
  match pr.1 with
  | Except.ok _ =>
    let resp2 := pr.2.api pr.2.apiCalls
    ({ statusCode := resp2.status, body := resp2.body },
     { pr.2 with apiCalls := pr.2.apiCalls + 1 })
  | Except.error _ =>
    ({ statusCode := resp1.status, body := resp1.body }, pr.2)

/-- Call phase of the handler (part_008 lines 195-246): issue the provider
API request; on a 401 re-load the tenant record and, when it holds a
truthy refresh token, refresh reactively and retry once; any non-401
status is returned as is. -/
def handlerCall (hub : String) (w1 : W) : HttpResp × W :=
  let resp1 := w1.api w1.apiCalls
  let w2 : W := { w1 with apiCalls := w1.apiCalls + 1 }
  if resp1.status = 401 then
    match getTokens_mem w2.env w2.store hub w2.now with
    | some t =>
      if truthyS t.refreshToken then
        handlerRetry resp1 (refreshAccessTokenProxyW hub t.refreshToken w2)
      else ({ statusCode := resp1.status, body := resp1.body }, w2)
    | none => ({ statusCode := resp1.status, body := resp1.body }, w2)
  else ({ statusCode := resp1.status, body := resp1.body }, w2)

/-- Validation phase after token acquisition (part_008 lines 135-173):
401 when no truthy access token was obtained, 400 when the requested path
header is missing, else proceed to the call phase. -/
def handlerAuthed (ev : Event) (hub : String) (g : Option String × W) :
    HttpResp × W :=
  match g.1 with
  | none =>
    ({ statusCode := 401, body := "No access token available. Please authenticate first." }, g.2)
  | some tok =>
    if tok = "" then
      ({ statusCode := 401, body := "No access token available. Please authenticate first." }, g.2)
    else
      match ev.requestedPath with
      | none => ({ statusCode := 400, body := "Missing x-requested-path header" }, g.2)
      | some p =>
        if p = "" then
          ({ statusCode := 400, body := "Missing x-requested-path header" }, g.2)
        else handlerCall hub g.2

/-- The proxy handler of part_008 lines 96-260: OPTIONS preflight, require
the x-hub-id header, acquire an access token, then validate and call. -/
def handlerW (ev : Event) (w : W) : HttpResp × W :=
  if ev.httpMethod = "OPTIONS" then ({ statusCode := 200, body := "" }, w)
  else
    match ev.hubIdHeader with
    | none =>
      ({ statusCode := 400, body := "hub_id is required in request headers for multi-tenant authentication" }, w)
    | some hub =>
      if hub = "" then
        ({ statusCode := 400, body := "hub_id is required in request headers for multi-tenant authentication" }, w)
      else handlerAuthed ev hub (getAccessTokenW hub w)


/-! ### Store lemmas -/

/-- A successful saveTokens_mem call: the hub_id was truthy, the record is
the canonical tokenData, and the store gained exactly the entry keyed by
the requested hub_id. -/
theorem saveTokens_mem_ok_spec (h : String) (t : RawTokens) (now : Int)
    (st : Store) (r : TokenRecord) (st' : Store)
    (hs : saveTokens_mem h t now st = .ok (r, st')) :
    h ≠ "" ∧ r = mkTokenData h t now ∧ st' = (h, r) :: st := by
  unfold saveTokens_mem at hs
  dsimp only at hs
  split at hs
  · simp at hs
  · next hne =>
    split at hs
    · simp at hs
    · rw [Except.ok.injEq, Prod.mk.injEq] at hs
      exact ⟨hne, hs.1.symm, by rw [← hs.2, hs.1]⟩

/-- A successful saveTokens_redis call: the record is the canonical
tokenData and the backend either gained exactly the entry keyed by
tokens:hub_id or is untouched (no redis backend, or write failure). -/
theorem saveTokens_redis_ok_spec (h : String) (t : RawTokens) (env : Env)
    (now : Int) (rs : Store) (rok : Bool) (r : TokenRecord) (rs' : Store)
    (hs : saveTokens_redis h t env now rs rok = .ok (r, rs')) :
    h ≠ "" ∧ r = mkTokenData h t now
    ∧ (rs' = ("tokens:" ++ h, r) :: rs ∨ rs' = rs) := by
  unfold saveTokens_redis at hs
  dsimp only at hs
  split at hs
  · simp at hs
  · next hne =>
    split at hs
    · simp at hs
    · split at hs
      · split at hs
        · rw [Except.ok.injEq, Prod.mk.injEq] at hs
          exact ⟨hne, hs.1.symm, Or.inl (by rw [← hs.2, hs.1])⟩
        · rw [Except.ok.injEq, Prod.mk.injEq] at hs
          exact ⟨hne, hs.1.symm, Or.inr hs.2.symm⟩
      · rw [Except.ok.injEq, Prod.mk.injEq] at hs
        exact ⟨hne, hs.1.symm, Or.inr hs.2.symm⟩

/-- Every record produced by getTokens_mem for a truthy hub_id comes from
the cache lookup at that hub_id, or is the environment-variable record
and the configured portal id equals the requested hub_id or is not
configured (sentinel env-var-portal). -/
theorem getTokens_mem_some_spec (env : Env) (st : Store) (h : String)
    (now : Int) (r : TokenRecord) (hne : h ≠ "")
    (hg : getTokens_mem env st h now = some r) :
    storeGet st h = some r
    ∨ (storeGet st h = none ∧ r = envRecordMem env now
        ∧ (envPortal env = h ∨ envPortal env = "env-var-portal")) := by
  unfold getTokens_mem at hg
  rw [if_neg hne] at hg
  split at hg
  · next t hc => exact Or.inl (by rw [hc]; exact hg)
  · next hc =>
    split at hg
    · split at hg
      · next hp => injection hg with hg'; exact Or.inr ⟨hc, hg'.symm, hp⟩
      · simp at hg
    · simp at hg

/-- Every record produced by getTokens_redis comes from the backend lookup
at key tokens:hub_id, or is the environment-variable record and the
configured portal id is set and equals the requested hub_id. -/
theorem getTokens_redis_some_spec (env : Env) (rs : Store) (rok : Bool)
    (h : String) (now : Int) (r : TokenRecord)
    (hg : getTokens_redis env rs rok h now = some r) :
    storeGet rs ("tokens:" ++ h) = some r
    ∨ (env.hubspotPortalId = some h ∧ r.hub_id = h
        ∧ r.accessToken = env.hubspotAccessToken
        ∧ r.refreshToken = env.hubspotRefreshToken) := by
  unfold getTokens_redis at hg
  split at hg
  · simp at hg
  · dsimp only at hg
    split at hg
    · next t heq =>
      injection hg with hg'
      split at heq
      · split at heq
        · exact Or.inl (by rw [heq]; rw [hg'])
        · simp at heq
      · simp at heq
    · next heq =>
      split at hg
      · split at hg
        · next pid hpid =>
          split at hg
          · next hcond =>
            injection hg with hg'
            refine Or.inr ⟨by rw [hpid, hcond.2], ?_, ?_, ?_⟩
            · rw [← hg']; simp [hcond.2]
            · rw [← hg']
            · rw [← hg']
          · simp at hg
        · simp at hg
      · simp at hg

/-- With the backend erroring (redisOk false) getTokens_redis behaves as
with an empty backend: it degrades to the fallback or not-found, it never
raises. -/
theorem getTokens_redis_backend_error (env : Env) (rs : Store) (h : String)
    (now : Int) :
    getTokens_redis env rs false h now = getTokens_redis env [] false h now := by
  unfold getTokens_redis
  split
  · rfl
  · dsimp only
    have hnone : ∀ (s : Store),
        (if storageBackend env = "redis" ∧ truthyS env.awsRedisHost = true then
          (if false = true then storeGet s ("tokens:" ++ h) else none)
         else none) = (none : Option TokenRecord) := by
      intro s; split <;> simp
    rw [hnone rs, hnone []]

/-! ### Claim C4: the freshness policy

Record literals in the claim statements below use the anonymous
constructor: TokenRecord fields are hub_id, accessToken, refreshToken,
expiresAt, updatedAt; RawTokens fields are raw_hub_id, accessToken,
access_token, refreshToken, refresh_token, expiresAt, expires_in. -/

/-- Claim C4 (counterexample): the claim as stated says needsRefresh is
true for every expiresAt less than or equal to now plus five minutes, but
at the boundary expiresAt = now + 300000 the code computes
now > expiresAt - 300000, which is false: a record with all fields
present, expiresAt 300000 and now 0 gives needsRefresh = false although
300000 is less than or equal to 0 + 300000. -/
theorem c4_needsRefresh_counterexample :
    needsRefresh (some ⟨"111", some "a1", some "r1", some 300000, 0⟩) 0 = false
    ∧ (300000 : Int) ≤ 0 + 300000 := by
  exact ⟨rfl, by decide⟩

/-- Claim C4 (amended): needsRefresh is true when the record is absent or
its expiresAt is absent; for a present, nonzero expiresAt it is true
exactly when expiresAt is strictly below now plus five minutes, hence
false exactly when expiresAt is at least now plus five minutes (the
boundary expiresAt = now + 300000 yields false, not true; a zero
expiresAt is treated as absent by JS truthiness). -/
theorem c4_needsRefresh_amended (now : Int) :
    needsRefresh none now = true
    ∧ (∀ r : TokenRecord, r.expiresAt = none → needsRefresh (some r) now = true)
    ∧ (∀ (r : TokenRecord) (e : Int), r.expiresAt = some e → e ≠ 0 →
        (needsRefresh (some r) now = true ↔ e < now + 300000)) := by
  refine ⟨rfl, ?_, ?_⟩
  · intro r hr
    simp only [needsRefresh, hr]
  · intro r e hr he
    simp only [needsRefresh, hr]
    rw [if_neg he, decide_eq_true_eq]
    omega

/-- Claim C4 (witness for the amended theorem). -/
theorem c4_needsRefresh_amended_witness :
    needsRefresh none 0 = true
    ∧ needsRefresh (some ⟨"111", some "a1", some "r1", none, 0⟩) 0 = true
    ∧ (needsRefresh (some ⟨"111", some "a1", some "r1", some 1, 0⟩) 0 = true
        ↔ (1 : Int) < 0 + 300000) :=
  ⟨(c4_needsRefresh_amended 0).1,
   (c4_needsRefresh_amended 0).2.1 _ rfl,
   (c4_needsRefresh_amended 0).2.2 _ 1 rfl (by decide)⟩

/-! ### Claim C5: save/load round trip -/

/-- Claim C5: saving access_token a1, refresh_token r1, expires_in 3600
for tenant 111 and then loading tenant 111 returns the very record just
written, with accessToken a1, refreshToken r1 and expiresAt equal to the
save-time clock plus 3600000 milliseconds, whatever the store already
held and whatever the environment holds. -/
theorem c5_save_load_round_trip (st : Store) (env : Env) (now now2 : Int) :
    ∃ (r : TokenRecord) (st' : Store),
      saveTokens_mem "111"
        ⟨none, none, some "a1", none, some "r1", none, some 3600⟩ now st
        = .ok (r, st')
      ∧ getTokens_mem env st' "111" now2 = some r
      ∧ r.accessToken = some "a1" ∧ r.refreshToken = some "r1"
      ∧ r.expiresAt = some (now + 3600000) := by
  refine ⟨_, _, rfl, ?_, rfl, rfl, ?_⟩
  · rfl
  · show some (jsOrIntD none (now + (jsOrIntD (some 3600) 21600) * 1000))
        = some (now + 3600000)
    rfl

/-! ### Claim C6: save validation and canonicalisation -/

/-- Claim C6 (counterexample): with tenantId present but neither
accessToken nor access_token in the data, saveTokens does not return a
canonical record; it throws the TypeError coming from the log line that
reads accessToken.substring, which is not the validation error, refuting
the claim that a validation failure happens only for a missing tenantId
and that otherwise a record is returned. -/
theorem c6_save_counterexample :
    saveTokens_mem "111" ⟨none, none, none, none, some "r1", none, none⟩ 0 []
      = .error .accessTokenUndefined
    ∧ JsError.accessTokenUndefined ≠ JsError.hubIdRequired := by
  exact ⟨rfl, by decide⟩

/-- Claim C6 (amended): saveTokens fails with the hub_id-required
validation error exactly when tenantId is missing; with tenantId present
it returns the canonical record described by the claim provided the data
carries an access token under accessToken or access_token, and otherwise
fails with the TypeError of the logging statement. -/
theorem c6_save_amended (h : String) (t : RawTokens) (now : Int) (st : Store) :
    (saveTokens_mem h t now st = .error .hubIdRequired ↔ h = "")
    ∧ (h ≠ "" → jsOrS t.accessToken t.access_token = none →
        saveTokens_mem h t now st = .error .accessTokenUndefined)
    ∧ (∀ a : String, h ≠ "" → jsOrS t.accessToken t.access_token = some a →
        saveTokens_mem h t now st
          = .ok (mkTokenData h t now, (h, mkTokenData h t now) :: st)
        ∧ (mkTokenData h t now).accessToken = some a
        ∧ (mkTokenData h t now).refreshToken = jsOrS t.refreshToken t.refresh_token
        ∧ (mkTokenData h t now).expiresAt
            = some (jsOrIntD t.expiresAt (now + (jsOrIntD t.expires_in 21600) * 1000))
        ∧ (mkTokenData h t now).updatedAt = now) := by
  refine ⟨⟨?_, ?_⟩, ?_, ?_⟩
  · intro hs
    by_contra hne
    unfold saveTokens_mem at hs
    rw [if_neg hne] at hs
    dsimp only at hs
    split at hs
    · simp at hs
    · simp at hs
  · intro he
    unfold saveTokens_mem
    rw [if_pos he]
  · intro hne hacc
    unfold saveTokens_mem
    rw [if_neg hne]
    dsimp only
    have hmk : (mkTokenData h t now).accessToken = none := hacc
    rw [hmk]
  · intro a hne hacc
    have hmk : (mkTokenData h t now).accessToken = some a := hacc
    refine ⟨?_, hmk, rfl, rfl, rfl⟩
    unfold saveTokens_mem
    rw [if_neg hne]
    dsimp only
    rw [hmk]

/-- Claim C6 (witness for the amended theorem). -/
theorem c6_save_amended_witness :
    saveTokens_mem ""
      ⟨none, none, some "a1", none, some "r1", none, some 3600⟩ 0 []
      = .error .hubIdRequired
    ∧ saveTokens_mem "111"
        ⟨none, none, some "a1", none, some "r1", none, some 3600⟩ 0 []
        = .ok (mkTokenData "111"
            ⟨none, none, some "a1", none, some "r1", none, some 3600⟩ 0,
          ("111", mkTokenData "111"
            ⟨none, none, some "a1", none, some "r1", none, some 3600⟩ 0) :: []) :=
  ⟨(c6_save_amended ""
      ⟨none, none, some "a1", none, some "r1", none, some 3600⟩ 0 []).1.mpr rfl,
   ((c6_save_amended "111"
      ⟨none, none, some "a1", none, some "r1", none, some 3600⟩ 0 []).2.2
      "a1" (by decide) rfl).1⟩

/-! ### Claim C9: idempotent save -/

/-- Claim C9 (counterexample): two successful saves of identical data at
clock 0 and clock 1000, where the data carries expires_in 3600 and no
explicit expiresAt, produce records that differ not only in updatedAt but
also in expiresAt (3600000 versus 3601000), refuting equality of all
fields but updatedAt. -/
theorem c9_idempotent_counterexample :
    saveTokens_mem "111" ⟨none, none, some "a1", none, none, none, some 3600⟩ 0 []
      = .ok (⟨"111", some "a1", none, some 3600000, 0⟩,
             [("111", ⟨"111", some "a1", none, some 3600000, 0⟩)])
    ∧ saveTokens_mem "111" ⟨none, none, some "a1", none, none, none, some 3600⟩ 1000 []
      = .ok (⟨"111", some "a1", none, some 3601000, 1000⟩,
             [("111", ⟨"111", some "a1", none, some 3601000, 1000⟩)])
    ∧ (some (3600000 : Int)) ≠ (some (3601000 : Int)) := by
  exact ⟨rfl, rfl, by decide⟩

/-- Claim C9 (amended): two successful saves of identical data always
agree on tenantId, accessToken and refreshToken; they agree on expiresAt
as well whenever the data carries a truthy explicit expiresAt, but when
expiresAt is derived from expires_in it is recomputed from the clock of
each call and can differ; updatedAt differs as the claim already allows. -/
theorem c9_idempotent_amended (h : String) (t : RawTokens) (n1 n2 : Int)
    (st1 st2 : Store) (r1 r2 : TokenRecord) (st1' st2' : Store)
    (h1 : saveTokens_mem h t n1 st1 = .ok (r1, st1'))
    (h2 : saveTokens_mem h t n2 st2 = .ok (r2, st2')) :
    r1.hub_id = r2.hub_id ∧ r1.accessToken = r2.accessToken
    ∧ r1.refreshToken = r2.refreshToken
    ∧ (∀ e : Int, t.expiresAt = some e → e ≠ 0 → r1.expiresAt = r2.expiresAt) := by
  obtain ⟨-, hr1, -⟩ := saveTokens_mem_ok_spec h t n1 st1 r1 st1' h1
  obtain ⟨-, hr2, -⟩ := saveTokens_mem_ok_spec h t n2 st2 r2 st2' h2
  subst hr1 hr2
  refine ⟨rfl, rfl, rfl, ?_⟩
  intro e he hene
  have hproj : ∀ n : Int, (mkTokenData h t n).expiresAt
      = some (jsOrIntD t.expiresAt (n + (jsOrIntD t.expires_in 21600) * 1000)) :=
    fun n => rfl
  rw [hproj n1, hproj n2, he]
  simp only [jsOrIntD]
  simp only [if_neg hene]

/-- Claim C9 (witness for the amended theorem). -/
theorem c9_idempotent_amended_witness :
    (mkTokenData "111" ⟨none, none, some "a1", none, none, some 5, none⟩ 0).hub_id
      = (mkTokenData "111" ⟨none, none, some "a1", none, none, some 5, none⟩ 7).hub_id
    ∧ (mkTokenData "111" ⟨none, none, some "a1", none, none, some 5, none⟩ 0).accessToken
      = (mkTokenData "111" ⟨none, none, some "a1", none, none, some 5, none⟩ 7).accessToken
    ∧ (mkTokenData "111" ⟨none, none, some "a1", none, none, some 5, none⟩ 0).refreshToken
      = (mkTokenData "111" ⟨none, none, some "a1", none, none, some 5, none⟩ 7).refreshToken
    ∧ (∀ e : Int,
        (⟨none, none, some "a1", none, none, some 5, none⟩ : RawTokens).expiresAt
          = some e → e ≠ 0 →
        (mkTokenData "111" ⟨none, none, some "a1", none, none, some 5, none⟩ 0).expiresAt
          = (mkTokenData "111" ⟨none, none, some "a1", none, none, some 5, none⟩ 7).expiresAt) :=
  c9_idempotent_amended "111" ⟨none, none, some "a1", none, none, some 5, none⟩
    0 7 [] []
    (mkTokenData "111" ⟨none, none, some "a1", none, none, some 5, none⟩ 0)
    (mkTokenData "111" ⟨none, none, some "a1", none, none, some 5, none⟩ 7)
    [("111", mkTokenData "111" ⟨none, none, some "a1", none, none, some 5, none⟩ 0)]
    [("111", mkTokenData "111" ⟨none, none, some "a1", none, none, some 5, none⟩ 7)]
    rfl rfl

/-! ### Claim C2: cross-tenant isolation -/

/-- Claim C2 (counterexample): in the in-memory variant (part_004), with
environment tokens configured but no HUBSPOT_PORTAL_ID, a load for tenant
222 returns the environment-variable fallback record even though the
configured portal id does not equal the requested tenant id (it is not
configured at all, and the record carries the sentinel portal id),
refuting the conjunct that the fallback is returned only when its
configured portal id equals the requested tenant id.  The Env fields are
backend, redis host, access token, refresh token, portal id, token
expiry, client id, client secret. -/
theorem c2_isolation_counterexample :
    getTokens_mem ⟨none, none, some "envA", some "envR", none, none, none, none⟩
      [] "222" 0
      = some ⟨"env-var-portal", some "envA", some "envR", some 21600000, 0⟩
    ∧ (⟨none, none, some "envA", some "envR", none, none, none, none⟩ : Env).hubspotPortalId
        ≠ some "222"
    ∧ ("env-var-portal" : String) ≠ "222" := by
  exact ⟨rfl, by decide, by decide⟩

/-- Claim C2 (amended): saves write only under a key derived from their
own tenantId (the hub_id itself in memory, tokens:hub_id in Redis) and
stamp the record with that tenantId; reads look up only the key of the
requested tenantId, so a load never returns a record that a save stored under
a different tenant; the environment-variable fallback is returned by the
Redis-backed store only when its configured portal id equals the
requested tenant id, and by the in-memory variant also when no portal id
is configured, in which case it answers for any tenant. -/
theorem c2_isolation_amended :
    (∀ (h : String) (t : RawTokens) (now : Int) (st : Store) (r : TokenRecord)
        (st' : Store), saveTokens_mem h t now st = .ok (r, st') →
        st' = (h, r) :: st ∧ r.hub_id = h)
    ∧ (∀ (h : String) (t : RawTokens) (env : Env) (now : Int) (rs : Store)
        (rok : Bool) (r : TokenRecord) (rs' : Store),
        saveTokens_redis h t env now rs rok = .ok (r, rs') →
        (rs' = ("tokens:" ++ h, r) :: rs ∨ rs' = rs) ∧ r.hub_id = h)
    ∧ (∀ (env : Env) (st : Store) (h : String) (now : Int) (r : TokenRecord),
        h ≠ "" → getTokens_mem env st h now = some r →
        storeGet st h = some r
        ∨ (storeGet st h = none ∧ r = envRecordMem env now
            ∧ (envPortal env = h ∨ envPortal env = "env-var-portal")))
    ∧ (∀ (env : Env) (rs : Store) (rok : Bool) (h : String) (now : Int)
        (r : TokenRecord), getTokens_redis env rs rok h now = some r →
        storeGet rs ("tokens:" ++ h) = some r
        ∨ (env.hubspotPortalId = some h ∧ r.hub_id = h)) := by
  refine ⟨?_, ?_, ?_, ?_⟩
  · intro h t now st r st' hs
    obtain ⟨-, hr, hst⟩ := saveTokens_mem_ok_spec h t now st r st' hs
    exact ⟨hst, by rw [hr]; rfl⟩
  · intro h t env now rs rok r rs' hs
    obtain ⟨-, hr, hst⟩ := saveTokens_redis_ok_spec h t env now rs rok r rs' hs
    exact ⟨hst, by rw [hr]; rfl⟩
  · intro env st h now r hne hg
    exact getTokens_mem_some_spec env st h now r hne hg
  · intro env rs rok h now r hg
    rcases getTokens_redis_some_spec env rs rok h now r hg with hc | ⟨hp, hh, -⟩
    · exact Or.inl hc
    · exact Or.inr ⟨hp, hh⟩

/-- Claim C2 (witness for the amended theorem): each conjunct applied at a
concrete input with its hypotheses discharged. -/
theorem c2_isolation_amended_witness :
    ([("111", mkTokenData "111" ⟨none, none, some "a1", none, some "r1", none, some 3600⟩ 0)]
        = ("111", mkTokenData "111" ⟨none, none, some "a1", none, some "r1", none, some 3600⟩ 0)
            :: ([] : Store)
      ∧ (mkTokenData "111" ⟨none, none, some "a1", none, some "r1", none, some 3600⟩ 0).hub_id
          = "111")
    ∧ (([("tokens:111", mkTokenData "111" ⟨none, none, some "a1", none, some "r1", none, some 3600⟩ 0)]
          = ("tokens:111", mkTokenData "111" ⟨none, none, some "a1", none, some "r1", none, some 3600⟩ 0)
              :: ([] : Store)
        ∨ [("tokens:111", mkTokenData "111" ⟨none, none, some "a1", none, some "r1", none, some 3600⟩ 0)]
          = ([] : Store))
      ∧ (mkTokenData "111" ⟨none, none, some "a1", none, some "r1", none, some 3600⟩ 0).hub_id
          = "111")
    ∧ (storeGet [("222", (⟨"222", some "x", none, none, 0⟩ : TokenRecord))] "222"
          = some ⟨"222", some "x", none, none, 0⟩
        ∨ (storeGet [("222", (⟨"222", some "x", none, none, 0⟩ : TokenRecord))] "222" = none
            ∧ (⟨"222", some "x", none, none, 0⟩ : TokenRecord)
                = envRecordMem ⟨none, none, none, none, none, none, none, none⟩ 0
            ∧ (envPortal ⟨none, none, none, none, none, none, none, none⟩ = "222"
                ∨ envPortal ⟨none, none, none, none, none, none, none, none⟩ = "env-var-portal")))
    ∧ (storeGet [("tokens:333", (⟨"333", some "y", none, none, 0⟩ : TokenRecord))] ("tokens:" ++ "333")
          = some ⟨"333", some "y", none, none, 0⟩
        ∨ ((⟨some "redis", some "rh", none, none, none, none, none, none⟩ : Env).hubspotPortalId
              = some "333"
            ∧ (⟨"333", some "y", none, none, 0⟩ : TokenRecord).hub_id = "333")) :=
  ⟨c2_isolation_amended.1 "111" ⟨none, none, some "a1", none, some "r1", none, some 3600⟩
      0 [] _ _ rfl,
   c2_isolation_amended.2.1 "111" ⟨none, none, some "a1", none, some "r1", none, some 3600⟩
      ⟨some "redis", some "rh", none, none, none, none, none, none⟩ 0 [] true _ _ rfl,
   c2_isolation_amended.2.2.1 ⟨none, none, none, none, none, none, none, none⟩
      [("222", ⟨"222", some "x", none, none, 0⟩)] "222" 0
      ⟨"222", some "x", none, none, 0⟩ (by decide) rfl,
   c2_isolation_amended.2.2.2 ⟨some "redis", some "rh", none, none, none, none, none, none⟩
      [("tokens:333", ⟨"333", some "y", none, none, 0⟩)] true "333" 0
      ⟨"333", some "y", none, none, 0⟩ rfl⟩

/-! ### Claim C7: load is total and fallback is guarded -/

/-- Claim C7: load never raises (both variants are total functions into
Option, a backend read error behaves exactly like an empty backend and
degrades to the fallback or not-found), and the environment-variable
override is only ever returned when its configured tenant identifier
matches the requested tenantId (Redis-backed store: portal id set and
equal) or when the override carries no tenant restriction (in-memory
variant sentinel portal); an override configured for a different tenant
is never returned. -/
theorem c7_load_total_fallback_guard :
    (∀ (env : Env) (rs : Store) (h : String) (now : Int),
        getTokens_redis env rs false h now = getTokens_redis env [] false h now)
    ∧ (∀ (env : Env) (rs : Store) (rok : Bool) (h : String) (now : Int)
        (r : TokenRecord), getTokens_redis env rs rok h now = some r →
        storeGet rs ("tokens:" ++ h) = some r ∨ env.hubspotPortalId = some h)
    ∧ (∀ (env : Env) (st : Store) (h : String) (now : Int) (r : TokenRecord),
        h ≠ "" → getTokens_mem env st h now = some r →
        storeGet st h = some r
        ∨ envPortal env = h ∨ envPortal env = "env-var-portal") := by
  refine ⟨getTokens_redis_backend_error, ?_, ?_⟩
  · intro env rs rok h now r hg
    rcases getTokens_redis_some_spec env rs rok h now r hg with hc | ⟨hp, -⟩
    · exact Or.inl hc
    · exact Or.inr hp
  · intro env st h now r hne hg
    rcases getTokens_mem_some_spec env st h now r hne hg with hc | ⟨-, -, hp⟩
    · exact Or.inl hc
    · exact Or.inr hp

/-- Claim C7 (witness): each conjunct applied at a concrete input with its
hypotheses discharged. -/
theorem c7_load_total_fallback_guard_witness :
    (getTokens_redis ⟨some "redis", some "rh", none, none, none, none, none, none⟩
        [("tokens:111", ⟨"111", some "x", none, none, 0⟩)] false "111" 0
      = getTokens_redis ⟨some "redis", some "rh", none, none, none, none, none, none⟩
        [] false "111" 0)
    ∧ (storeGet [("tokens:444", (⟨"444", some "z", none, none, 0⟩ : TokenRecord))] ("tokens:" ++ "444")
          = some ⟨"444", some "z", none, none, 0⟩
        ∨ (⟨some "redis", some "rh", none, none, none, none, none, none⟩ : Env).hubspotPortalId
            = some "444")
    ∧ (storeGet [("555", (⟨"555", some "w", none, none, 0⟩ : TokenRecord))] "555"
          = some ⟨"555", some "w", none, none, 0⟩
        ∨ envPortal ⟨none, none, none, none, none, none, none, none⟩ = "555"
        ∨ envPortal ⟨none, none, none, none, none, none, none, none⟩ = "env-var-portal") :=
  ⟨c7_load_total_fallback_guard.1
      ⟨some "redis", some "rh", none, none, none, none, none, none⟩
      [("tokens:111", ⟨"111", some "x", none, none, 0⟩)] "111" 0,
   c7_load_total_fallback_guard.2.1
      ⟨some "redis", some "rh", none, none, none, none, none, none⟩
      [("tokens:444", ⟨"444", some "z", none, none, 0⟩)] true "444" 0
      ⟨"444", some "z", none, none, 0⟩ rfl,
   c7_load_total_fallback_guard.2.2 ⟨none, none, none, none, none, none, none, none⟩
      [("555", ⟨"555", some "w", none, none, 0⟩)] "555" 0
      ⟨"555", some "w", none, none, 0⟩ (by decide) rfl⟩

/-! ### Wrapper lemmas -/

/-- The counted proxy refresher makes no API calls and at most one
token-endpoint call, and leaves the clock and both oracles as they are. -/
theorem refreshAccessTokenProxyW_frame (h : String) (rt : Option String)
    (w : W) :
    (refreshAccessTokenProxyW h rt w).2.apiCalls = w.apiCalls
    ∧ (refreshAccessTokenProxyW h rt w).2.refreshCalls ≤ w.refreshCalls + 1
    ∧ (refreshAccessTokenProxyW h rt w).2.api = w.api
    ∧ (refreshAccessTokenProxyW h rt w).2.refreshApi = w.refreshApi
    ∧ (refreshAccessTokenProxyW h rt w).2.now = w.now
    ∧ (refreshAccessTokenProxyW h rt w).2.env = w.env := by
  unfold refreshAccessTokenProxyW
  refine ⟨rfl, ?_, rfl, rfl, rfl, rfl⟩
  dsimp only
  split <;> omega

/-- Token acquisition makes no API calls, at most one token-endpoint
call, and leaves the clock and both oracles as they are. -/
theorem getAccessTokenW_frame (h : String) (w : W) :
    (getAccessTokenW h w).2.apiCalls = w.apiCalls
    ∧ (getAccessTokenW h w).2.refreshCalls ≤ w.refreshCalls + 1
    ∧ (getAccessTokenW h w).2.api = w.api
    ∧ (getAccessTokenW h w).2.refreshApi = w.refreshApi
    ∧ (getAccessTokenW h w).2.now = w.now
    ∧ (getAccessTokenW h w).2.env = w.env := by
  unfold getAccessTokenW
  split
  · next t heq =>
    split
    · split
      · rcases hpr : refreshAccessTokenProxyW h t.refreshToken w with ⟨res, w2⟩
        have hfr := refreshAccessTokenProxyW_frame h t.refreshToken w
        rw [hpr] at hfr
        cases res <;> exact hfr
      · exact ⟨rfl, Nat.le_succ _, rfl, rfl, rfl, rfl⟩
    · exact ⟨rfl, Nat.le_succ _, rfl, rfl, rfl, rfl⟩
  · exact ⟨rfl, Nat.le_succ _, rfl, rfl, rfl, rfl⟩

/-- The retry tail makes at most one further API call and no further
token-endpoint calls. -/
theorem handlerRetry_counts (resp1 : ApiResp)
    (pr : Except JsError RawTokens × W) :
    (handlerRetry resp1 pr).2.apiCalls ≤ pr.2.apiCalls + 1
    ∧ (handlerRetry resp1 pr).2.refreshCalls = pr.2.refreshCalls := by
  unfold handlerRetry
  rcases pr with ⟨res, w2⟩
  cases res
  · exact ⟨Nat.le_succ _, rfl⟩
  · exact ⟨Nat.le_refl _, rfl⟩

/-- The call phase makes at most two API calls and at most one
token-endpoint call. -/
theorem handlerCall_counts (hub : String) (w1 : W) :
    (handlerCall hub w1).2.apiCalls ≤ w1.apiCalls + 2
    ∧ (handlerCall hub w1).2.refreshCalls ≤ w1.refreshCalls + 1 := by
  unfold handlerCall
  dsimp only
  split
  · split
    · next t heq =>
      split
      · obtain ⟨hf1, hf2, -⟩ := refreshAccessTokenProxyW_frame hub t.refreshToken
          { w1 with apiCalls := w1.apiCalls + 1 }
        obtain ⟨hr1, hr2⟩ := handlerRetry_counts (w1.api w1.apiCalls)
          (refreshAccessTokenProxyW hub t.refreshToken
            { w1 with apiCalls := w1.apiCalls + 1 })
        dsimp only at hf1 hf2
        exact ⟨by omega, by omega⟩
      · exact ⟨by dsimp only; omega, by dsimp only; omega⟩
    · exact ⟨by dsimp only; omega, by dsimp only; omega⟩
  · exact ⟨by dsimp only; omega, by dsimp only; omega⟩

/-- The post-acquisition phase makes at most two API calls and at most
one token-endpoint call beyond the acquisition state. -/
theorem handlerAuthed_counts (ev : Event) (hub : String)
    (g : Option String × W) :
    (handlerAuthed ev hub g).2.apiCalls ≤ g.2.apiCalls + 2
    ∧ (handlerAuthed ev hub g).2.refreshCalls ≤ g.2.refreshCalls + 1 := by
  unfold handlerAuthed
  rcases g with ⟨tok, w1⟩
  cases tok
  · exact ⟨by dsimp only; omega, by dsimp only; omega⟩
  · dsimp only
    split
    · exact ⟨by dsimp only; omega, by dsimp only; omega⟩
    · cases hp : ev.requestedPath
      · exact ⟨by dsimp only; omega, by dsimp only; omega⟩
      · dsimp only
        split
        · exact ⟨by dsimp only; omega, by dsimp only; omega⟩
        · exact handlerCall_counts hub w1

/-- One handler invocation makes at most two API calls and at most two
token-endpoint calls beyond the initial state. -/
theorem handlerW_counts (ev : Event) (w : W) :
    (handlerW ev w).2.apiCalls ≤ w.apiCalls + 2
    ∧ (handlerW ev w).2.refreshCalls ≤ w.refreshCalls + 2 := by
  unfold handlerW
  split
  · exact ⟨by dsimp only; omega, by dsimp only; omega⟩
  · split
    · exact ⟨by dsimp only; omega, by dsimp only; omega⟩
    · next hub hheq =>
      split
      · exact ⟨by dsimp only; omega, by dsimp only; omega⟩
      · obtain ⟨hg1, hg2, -⟩ := getAccessTokenW_frame hub w
        obtain ⟨ha1, ha2⟩ := handlerAuthed_counts ev hub (getAccessTokenW hub w)
        exact ⟨by omega, by omega⟩

/-! ### Claim C3: per-invocation call bounds -/

/-- Claim C3 (counterexample): one handler invocation with a stored but
stale record for tenant 111, a provider answering 401 to every API call
and success to every refresh, performs two refresh calls to the token
endpoint (one proactive inside token acquisition because the stored
record needed refresh, one reactive after the first 401), refuting the
bound of at most one refresh call per invocation.  Event fields are
httpMethod, x-hub-id header, x-requested-path header; refresh-response
fields are ok, status, statusText, access_token, refresh_token,
expires_in, hub_id, message. -/
theorem c3_retry_counterexample :
    (handlerW ⟨"GET", some "111", some "/x"⟩
      (mkW ⟨none, none, none, none, none, none, some "cid", some "cs"⟩
        [("111", ⟨"111", some "oldA", some "r0", some 1, 0⟩)] 1000000
        (fun _ => ⟨401, "unauthorized"⟩)
        (fun _ => ⟨true, 200, "OK", some "newA", some "r1", some 3600, some "111", none⟩))).2.refreshCalls
      = 2
    ∧ (handlerW ⟨"GET", some "111", some "/x"⟩
      (mkW ⟨none, none, none, none, none, none, some "cid", some "cs"⟩
        [("111", ⟨"111", some "oldA", some "r0", some 1, 0⟩)] 1000000
        (fun _ => ⟨401, "unauthorized"⟩)
        (fun _ => ⟨true, 200, "OK", some "newA", some "r1", some 3600, some "111", none⟩))).2.apiCalls
      = 2 := by
  exact ⟨rfl, rfl⟩

/-- Claim C3 (amended): one handler invocation issues at most 2 calls to
the provider API and at most 2 calls to the provider token endpoint: at
most one proactive refresh during token acquisition plus at most one
reactive refresh after a 401; the reactive 401-triggered refresh-and-
retry happens at most once regardless of how many consecutive 401s the
provider returns. -/
theorem c3_retry_amended (ev : Event) (env : Env) (st : Store) (now : Int)
    (api : Nat → ApiResp) (rapi : Nat → TokenEndpointResp) :
    (handlerW ev (mkW env st now api rapi)).2.apiCalls ≤ 2
    ∧ (handlerW ev (mkW env st now api rapi)).2.refreshCalls ≤ 2 := by
  obtain ⟨h1, h2⟩ := handlerW_counts ev (mkW env st now api rapi)
  have hz1 : (mkW env st now api rapi).apiCalls = 0 := rfl
  have hz2 : (mkW env st now api rapi).refreshCalls = 0 := rfl
  exact ⟨by omega, by omega⟩

/-! ### Claim C8: non-401 responses are terminal and verbatim -/

/-- Claim C8: whenever a handler invocation gets past its input checks and
token acquisition and the first provider response has any status other
than 401, exactly one provider API call is made, the response triggers no
refresh (the token-endpoint call count is exactly what token acquisition
left it at), and the response status and payload are returned to the
caller unchanged. -/
theorem c8_non401_passthrough (env : Env) (st : Store) (now : Int)
    (api : Nat → ApiResp) (rapi : Nat → TokenEndpointResp) (ev : Event)
    (hub tok p : String)
    (hm : ev.httpMethod ≠ "OPTIONS")
    (hh : ev.hubIdHeader = some hub) (hhne : hub ≠ "")
    (hp : ev.requestedPath = some p) (hpne : p ≠ "")
    (ht : (getAccessTokenW hub (mkW env st now api rapi)).1 = some tok)
    (htne : tok ≠ "")
    (hs : (api 0).status ≠ 401) :
    (handlerW ev (mkW env st now api rapi)).1.statusCode = (api 0).status
    ∧ (handlerW ev (mkW env st now api rapi)).1.body = (api 0).body
    ∧ (handlerW ev (mkW env st now api rapi)).2.apiCalls = 1
    ∧ (handlerW ev (mkW env st now api rapi)).2.refreshCalls
        = (getAccessTokenW hub (mkW env st now api rapi)).2.refreshCalls := by
  obtain ⟨hac, -, hapi, -, -, -⟩ := getAccessTokenW_frame hub (mkW env st now api rapi)
  have hmk : (mkW env st now api rapi).apiCalls = 0 := rfl
  have key : handlerW ev (mkW env st now api rapi)
      = ({ statusCode := (api 0).status, body := (api 0).body },
         { (getAccessTokenW hub (mkW env st now api rapi)).2 with
            apiCalls := (getAccessTokenW hub (mkW env st now api rapi)).2.apiCalls + 1 }) := by
    unfold handlerW
    rw [if_neg hm, hh]
    dsimp only
    rw [if_neg hhne]
    unfold handlerAuthed
    rw [ht]
    dsimp only
    rw [if_neg htne, hp]
    dsimp only
    rw [if_neg hpne]
    unfold handlerCall
    dsimp only
    rw [hapi, hac, hmk]
    have hmka : (mkW env st now api rapi).api = api := rfl
    rw [hmka]
    rw [if_neg hs]
  rw [key]
  refine ⟨rfl, rfl, ?_, rfl⟩
  dsimp only
  omega

/-- Claim C8 (witness): a fresh stored record for tenant 111, a provider
answering 200 with payload hello: the handler returns 200 hello, one API
call, and the refresh count token acquisition left (zero). -/
theorem c8_non401_passthrough_witness :
    (handlerW ⟨"GET", some "111", some "/x"⟩
      (mkW ⟨none, none, none, none, none, none, none, none⟩
        [("111", ⟨"111", some "tokA", some "r", some 999999999, 0⟩)] 0
        (fun _ => ⟨200, "hello"⟩)
        (fun _ => ⟨false, 500, "ERR", none, none, none, none, none⟩))).1.statusCode
      = ((fun _ => (⟨200, "hello"⟩ : ApiResp)) 0).status
    ∧ (handlerW ⟨"GET", some "111", some "/x"⟩
      (mkW ⟨none, none, none, none, none, none, none, none⟩
        [("111", ⟨"111", some "tokA", some "r", some 999999999, 0⟩)] 0
        (fun _ => ⟨200, "hello"⟩)
        (fun _ => ⟨false, 500, "ERR", none, none, none, none, none⟩))).1.body
      = ((fun _ => (⟨200, "hello"⟩ : ApiResp)) 0).body
    ∧ (handlerW ⟨"GET", some "111", some "/x"⟩
      (mkW ⟨none, none, none, none, none, none, none, none⟩
        [("111", ⟨"111", some "tokA", some "r", some 999999999, 0⟩)] 0
        (fun _ => ⟨200, "hello"⟩)
        (fun _ => ⟨false, 500, "ERR", none, none, none, none, none⟩))).2.apiCalls
      = 1
    ∧ (handlerW ⟨"GET", some "111", some "/x"⟩
      (mkW ⟨none, none, none, none, none, none, none, none⟩
        [("111", ⟨"111", some "tokA", some "r", some 999999999, 0⟩)] 0
        (fun _ => ⟨200, "hello"⟩)
        (fun _ => ⟨false, 500, "ERR", none, none, none, none, none⟩))).2.refreshCalls
      = (getAccessTokenW "111"
          (mkW ⟨none, none, none, none, none, none, none, none⟩
            [("111", ⟨"111", some "tokA", some "r", some 999999999, 0⟩)] 0
            (fun _ => ⟨200, "hello"⟩)
            (fun _ => ⟨false, 500, "ERR", none, none, none, none, none⟩))).2.refreshCalls :=
  c8_non401_passthrough ⟨none, none, none, none, none, none, none, none⟩
    [("111", ⟨"111", some "tokA", some "r", some 999999999, 0⟩)] 0
    (fun _ => ⟨200, "hello"⟩)
    (fun _ => ⟨false, 500, "ERR", none, none, none, none, none⟩)
    ⟨"GET", some "111", some "/x"⟩ "111" "tokA" "/x"
    (by decide) rfl (by decide) rfl (by decide) rfl (by decide) (by decide)

/-! ### Claim C1: tenant-binding check on refresh -/

/-- A truthy first operand short-circuits the JS or. -/
theorem jsOrS_truthy (tok : String) (h : tok ≠ "") (b : Option String) :
    jsOrS (some tok) b = some tok := by
  simp [jsOrS, truthyS, h]

/-- Claim C1: when the requested tenant id is truthy, the resolved refresh
token and the client credentials are present, the provider response is ok
but reports a truthy hub_id different from the requested one, the part_000
refresher fails with the hub-mismatch error and returns the store exactly
as it was: the received tokens are saved under no tenant, the record for
the requested tenant is unchanged and no record for the reported tenant is
created. -/
theorem c1_tenant_mismatch (hub h2 : String) (rt : Option String) (env : Env)
    (resp : TokenEndpointResp) (now : Int) (st : Store) (tok : String)
    (hhub : hub ≠ "") (hok : resp.ok = true)
    (hhid : resp.resp_hub_id = some h2) (h2ne : h2 ≠ "") (hdiff : h2 ≠ hub)
    (htok : jsOrS rt env.hubspotRefreshToken = some tok) (htokne : tok ≠ "")
    (hcid : truthyS env.clientId = true) (hcs : truthyS env.clientSecret = true) :
    refreshAccessTokenCore hub rt env resp now st
      = (.error (.hubMismatch h2 hub), st)
    ∧ storeGet (refreshAccessTokenCore hub rt env resp now st).2 hub
        = storeGet st hub
    ∧ storeGet (refreshAccessTokenCore hub rt env resp now st).2 h2
        = storeGet st h2 := by
  have hcc : (truthyS env.clientId && truthyS env.clientSecret) = true := by
    rw [hcid, hcs]
    rfl
  have key : refreshAccessTokenCore hub rt env resp now st
      = (.error (.hubMismatch h2 hub), st) := by
    unfold refreshAccessTokenCore
    rw [htok]
    dsimp only
    rw [if_neg htokne, if_pos hcc, if_pos hok, hhid]
    dsimp only
    rw [if_neg h2ne]
    dsimp only
    rw [if_neg hhub, if_neg hdiff]
  exact ⟨key, by rw [key], by rw [key]⟩

/-- Claim C1 (witness): requested tenant 111, response reporting tenant
222; Env fields are backend, redis host, access token, refresh token,
portal id, token expiry, client id, client secret. -/
theorem c1_tenant_mismatch_witness :
    refreshAccessTokenCore "111" (some "r0")
      ⟨none, none, none, none, none, none, some "cid", some "cs"⟩
      ⟨true, 200, "OK", some "a", some "r1", some 3600, some "222", none⟩ 0 []
      = (.error (.hubMismatch "222" "111"), [])
    ∧ storeGet (refreshAccessTokenCore "111" (some "r0")
        ⟨none, none, none, none, none, none, some "cid", some "cs"⟩
        ⟨true, 200, "OK", some "a", some "r1", some 3600, some "222", none⟩ 0 []).2 "111"
        = storeGet [] "111"
    ∧ storeGet (refreshAccessTokenCore "111" (some "r0")
        ⟨none, none, none, none, none, none, some "cid", some "cs"⟩
        ⟨true, 200, "OK", some "a", some "r1", some 3600, some "222", none⟩ 0 []).2 "222"
        = storeGet [] "222" :=
  c1_tenant_mismatch "111" "222" (some "r0")
    ⟨none, none, none, none, none, none, some "cid", some "cs"⟩
    ⟨true, 200, "OK", some "a", some "r1", some 3600, some "222", none⟩ 0 [] "r0"
    (by decide) rfl rfl (by decide) (by decide) rfl (by decide) rfl rfl

/-! ### Claim C10: a refresh never erases the refresh credential -/

/-- A successful refreshFinish returns the constructed newTokenData, whose
refresh_token slot is empty and whose refreshToken is the response token
or-else the token that was sent; the store is unchanged (save failure,
caught) or gains exactly the canonical record for the save key. -/
theorem refreshFinish_spec (saveKey tok : String) (wh : Bool)
    (resp : TokenEndpointResp) (now : Int) (st : Store)
    (nt : RawTokens) (st' : Store)
    (hf : refreshFinish saveKey tok wh resp now st = (.ok nt, st')) :
    nt.refreshToken = jsOrS resp.refresh_token (some tok)
    ∧ nt.refresh_token = none
    ∧ (st' = st ∨ st' = (saveKey, mkTokenData saveKey nt now) :: st) := by
  unfold refreshFinish at hf
  dsimp only at hf
  split at hf
  · next r st2 hsave =>
    rw [Prod.mk.injEq, Except.ok.injEq] at hf
    obtain ⟨hnt, hst⟩ := hf
    obtain ⟨-, hval, hst2⟩ := saveTokens_mem_ok_spec saveKey _ now st r st2 hsave
    subst hnt
    refine ⟨rfl, rfl, Or.inr ?_⟩
    rw [← hst, hst2, hval]
  · next hsave =>
    rw [Prod.mk.injEq, Except.ok.injEq] at hf
    obtain ⟨hnt, hst⟩ := hf
    subst hnt
    exact ⟨rfl, rfl, Or.inl hst.symm⟩

/-- Helper for C10: any successful refreshFinish reached with the resolved
token tok retains tok as the refreshToken of both the returned data and
the record it may have persisted, when the response omits refresh_token. -/
theorem refreshFinish_retained (k tok : String) (wh : Bool)
    (resp : TokenEndpointResp) (now : Int) (st : Store)
    (nt : RawTokens) (st' : Store)
    (hnone : resp.refresh_token = none) (htz : tok ≠ "")
    (hf : refreshFinish k tok wh resp now st = (.ok nt, st')) :
    nt.refreshToken = some tok
    ∧ (st' = st ∨ st' = (k, mkTokenData k nt now) :: st
        ∧ (mkTokenData k nt now).refreshToken = some tok) := by
  obtain ⟨h1, h2, h3⟩ := refreshFinish_spec k tok wh resp now st nt st' hf
  have hrt : nt.refreshToken = some tok := by rw [h1, hnone]; rfl
  refine ⟨hrt, ?_⟩
  rcases h3 with h3 | h3
  · exact Or.inl h3
  · refine Or.inr ⟨h3, ?_⟩
    have hm : (mkTokenData k nt now).refreshToken
        = jsOrS nt.refreshToken nt.refresh_token := rfl
    rw [hm, hrt, h2, jsOrS_truthy tok htz]

/-- Claim C10: when a successful refresh response omits refresh_token,
both refreshers build newTokenData whose refreshToken is exactly the
token that was used for the request (the argument or-else the environment
fallback), and whatever record they persist carries that same token, so a
refresh never erases the refresh credential. -/
theorem c10_refresh_token_retained (hub : String) (rt : Option String)
    (env : Env) (resp : TokenEndpointResp) (now : Int) (st : Store)
    (hnone : resp.refresh_token = none) :
    (∀ (nt : RawTokens) (st' : Store),
      refreshAccessTokenCore hub rt env resp now st = (.ok nt, st') →
      nt.refreshToken = jsOrS rt env.hubspotRefreshToken
      ∧ (st' = st ∨ ∃ k, st' = (k, mkTokenData k nt now) :: st
          ∧ (mkTokenData k nt now).refreshToken = jsOrS rt env.hubspotRefreshToken))
    ∧ (∀ (nt : RawTokens) (st' : Store),
      refreshAccessTokenProxy hub rt env resp now st = (.ok nt, st') →
      nt.refreshToken = jsOrS rt env.hubspotRefreshToken
      ∧ (st' = st ∨ st' = (hub, mkTokenData hub nt now) :: st
          ∧ (mkTokenData hub nt now).refreshToken = jsOrS rt env.hubspotRefreshToken)) := by
  cases hj : jsOrS rt env.hubspotRefreshToken with
  | none =>
    constructor
    · intro nt st' hr
      unfold refreshAccessTokenCore at hr
      rw [hj] at hr
      simp at hr
    · intro nt st' hr
      unfold refreshAccessTokenProxy at hr
      rw [hj] at hr
      simp at hr
  | some tok =>
    by_cases htz : tok = ""
    · constructor
      · intro nt st' hr
        unfold refreshAccessTokenCore at hr
        rw [hj] at hr
        dsimp only at hr
        rw [if_pos htz] at hr
        simp at hr
      · intro nt st' hr
        unfold refreshAccessTokenProxy at hr
        rw [hj] at hr
        dsimp only at hr
        rw [if_pos htz] at hr
        simp at hr
    · constructor
      · intro nt st' hr
        unfold refreshAccessTokenCore at hr
        rw [hj] at hr
        dsimp only at hr
        rw [if_neg htz] at hr
        split at hr
        · split at hr
          · split at hr
            · next a heqa =>
              split at hr
              · obtain ⟨ha, hb⟩ := refreshFinish_retained a tok true
                  resp now st nt st' hnone htz hr
                refine ⟨ha, ?_⟩
                rcases hb with hb | ⟨hb1, hb2⟩
                · exact Or.inl hb
                · exact Or.inr ⟨a, hb1, hb2⟩
              · split at hr
                · obtain ⟨ha, hb⟩ := refreshFinish_retained a tok true
                    resp now st nt st' hnone htz hr
                  refine ⟨ha, ?_⟩
                  rcases hb with hb | ⟨hb1, hb2⟩
                  · exact Or.inl hb
                  · exact Or.inr ⟨a, hb1, hb2⟩
                · simp at hr
            · obtain ⟨ha, hb⟩ := refreshFinish_retained hub tok true
                resp now st nt st' hnone htz hr
              refine ⟨ha, ?_⟩
              rcases hb with hb | ⟨hb1, hb2⟩
              · exact Or.inl hb
              · exact Or.inr ⟨hub, hb1, hb2⟩
          · simp at hr
        · simp at hr
      · intro nt st' hr
        unfold refreshAccessTokenProxy at hr
        rw [hj] at hr
        dsimp only at hr
        rw [if_neg htz] at hr
        split at hr
        · split at hr
          · obtain ⟨ha, hb⟩ := refreshFinish_retained hub tok false
              resp now st nt st' hnone htz hr
            exact ⟨ha, hb⟩
          · simp at hr
        · simp at hr

/-- Claim C10 (witness): both refreshers applied at a concrete input with
the response omitting refresh_token. -/
theorem c10_refresh_token_retained_witness :
    ((⟨some "111", some "a", none, some "r0", none, some 3600000, none⟩ : RawTokens).refreshToken
        = jsOrS (some "r0")
            (⟨none, none, none, none, none, none, some "cid", some "cs"⟩ : Env).hubspotRefreshToken
      ∧ ([("111", mkTokenData "111" ⟨some "111", some "a", none, some "r0", none, some 3600000, none⟩ 0)]
            = ([] : Store)
          ∨ ∃ k, [("111", mkTokenData "111" ⟨some "111", some "a", none, some "r0", none, some 3600000, none⟩ 0)]
              = (k, mkTokenData k ⟨some "111", some "a", none, some "r0", none, some 3600000, none⟩ 0) :: []
            ∧ (mkTokenData k ⟨some "111", some "a", none, some "r0", none, some 3600000, none⟩ 0).refreshToken
                = jsOrS (some "r0")
                    (⟨none, none, none, none, none, none, some "cid", some "cs"⟩ : Env).hubspotRefreshToken))
    ∧ ((⟨none, some "b", none, some "r9", none, some 60000, none⟩ : RawTokens).refreshToken
        = jsOrS (some "r9")
            (⟨none, none, none, none, none, none, some "cid", some "cs"⟩ : Env).hubspotRefreshToken
      ∧ ([("222", mkTokenData "222" ⟨none, some "b", none, some "r9", none, some 60000, none⟩ 0)]
            = ([] : Store)
          ∨ [("222", mkTokenData "222" ⟨none, some "b", none, some "r9", none, some 60000, none⟩ 0)]
              = ("222", mkTokenData "222" ⟨none, some "b", none, some "r9", none, some 60000, none⟩ 0) :: []
            ∧ (mkTokenData "222" ⟨none, some "b", none, some "r9", none, some 60000, none⟩ 0).refreshToken
                = jsOrS (some "r9")
                    (⟨none, none, none, none, none, none, some "cid", some "cs"⟩ : Env).hubspotRefreshToken)) :=
  ⟨(c10_refresh_token_retained "111" (some "r0")
      ⟨none, none, none, none, none, none, some "cid", some "cs"⟩
      ⟨true, 200, "OK", some "a", none, some 3600, some "111", none⟩ 0 [] rfl).1
      ⟨some "111", some "a", none, some "r0", none, some 3600000, none⟩
      [("111", mkTokenData "111" ⟨some "111", some "a", none, some "r0", none, some 3600000, none⟩ 0)]
      rfl,
   (c10_refresh_token_retained "222" (some "r9")
      ⟨none, none, none, none, none, none, some "cid", some "cs"⟩
      ⟨true, 200, "OK", some "b", none, some 60, none, none⟩ 0 [] rfl).2
      ⟨none, some "b", none, some "r9", none, some 60000, none⟩
      [("222", mkTokenData "222" ⟨none, some "b", none, some "r9", none, some 60000, none⟩ 0)]
      rfl⟩
